import Mathlib

/-!
Verification of the ZaraAI repository's natural-language specification
against a shallow embedding of its Python sources.

The embedding covers:
* `LightweightAPIManager` from `src/api_integration_manager.py`
  (service registry, TTL cache, offline/online dispatch, error envelope),
* the concrete service adapters registered by `_initialize_services`,
* `DefendIQSecurity._encrypt_data` from `src/phase8-enterprise_integration.py`.

Python dictionaries, strings, numbers and `None` are modelled by the
JSON-like type `PyVal`; code that can raise is modelled in
`Except String`, the error carrying the exception message.
-/

/-- A Python value as used by the repository: `None`, booleans, integers,
floats (only integral float literals occur in the source, so a float is
stored as its integral value), strings, lists and string-keyed dicts. -/
inductive PyVal where
  | vnone : PyVal
  | vbool : Bool → PyVal
  | vint : Int → PyVal
  | vfloat : Int → PyVal
  | vstr : String → PyVal
  | vlist : List PyVal → PyVal
  | vdict : List (String × PyVal) → PyVal

/-- First-match association-list lookup, the model of Python dict indexing
(later duplicate keys are shadowed, as a rebinding in a Python dict would
overwrite). -/
def alookup {α : Type} : List (String × α) → String → Option α
  | [], _ => Option.none
  | (k, v) :: rest, key => if k = key then Option.some v else alookup rest key

/-- Python truthiness of a `PyVal` (`bool(x)`). -/
def truthy : PyVal → Bool
  | .vnone => false
  | .vbool b => b
  | .vint n => n != 0
  | .vfloat n => n != 0
  | .vstr s => s != ""
  | .vlist xs => !xs.isEmpty
  | .vdict kvs => !kvs.isEmpty

/-- Model of `x.get(key)` on a Python value: returns `None` for a missing key on a
dict, raises `AttributeError` on a non-dict receiver. -/
def PyVal.get (v : PyVal) (key : String) : Except String PyVal :=
  match v with
  | .vdict kvs => Except.ok ((alookup kvs key).getD .vnone)
  | _ => Except.error "AttributeError: no attribute get"

/-- Model of `x.get(key, default)` on a Python value. -/
def PyVal.getD (v : PyVal) (key : String) (dflt : PyVal) : Except String PyVal :=
  match v with
  | .vdict kvs => Except.ok ((alookup kvs key).getD dflt)
  | _ => Except.error "AttributeError: no attribute get"

/-- Model of `x[key]` on a Python value: `KeyError` when missing, `TypeError` on a
non-dict receiver. -/
def pyItem (v : PyVal) (key : String) : Except String PyVal :=
  match v with
  | .vdict kvs =>
    match alookup kvs key with
    | Option.some x => Except.ok x
    | Option.none => Except.error ("KeyError: " ++ key)
  | _ => Except.error "TypeError: value is not subscriptable"

/-- Model of `s.lower()` on a string value. -/
def lowerStr (s : String) : String := String.mk (s.data.map Char.toLower)

/-- Model of `x.lower()` on a Python value: only strings have `lower`. -/
def pyLower (v : PyVal) : Except String String :=
  match v with
  | .vstr s => Except.ok (lowerStr s)
  | _ => Except.error "AttributeError: no attribute lower"

/-- Does the character list start with the given pattern? -/
def headMatch : List Char → List Char → Bool
  | [], _ => true
  | _ :: _, [] => false
  | a :: as, b :: bs => a = b && headMatch as bs

/-- Does the pattern occur somewhere in the character list? -/
def containsAt (pat : List Char) : List Char → Bool
  | [] => headMatch pat []
  | c :: rest => headMatch pat (c :: rest) || containsAt pat rest

/-- Python's `pat in s` substring test. -/
def strContains (s pat : String) : Bool := containsAt pat.data s.data

mutual

/-- Model of `json.dumps` on a Python value (string escaping elided: no string in
the repository's data contains a quote or backslash). -/
def jsonDumps : PyVal → String
  | .vnone => "null"
  | .vbool b => if b then "true" else "false"
  | .vint n => toString n
  | .vfloat n => toString n ++ ".0"
  | .vstr s => "\"" ++ s ++ "\""
  | .vlist xs => "[" ++ jsonDumpsList xs ++ "]"
  | .vdict kvs => "\x7b" ++ jsonDumpsKVs kvs ++ "\x7d"

/-- Comma-separated JSON rendering of list elements. -/
def jsonDumpsList : List PyVal → String
  | [] => ""
  | [x] => jsonDumps x
  | x :: y :: rest => jsonDumps x ++ ", " ++ jsonDumpsList (y :: rest)

/-- Comma-separated JSON rendering of dict entries. -/
def jsonDumpsKVs : List (String × PyVal) → String
  | [] => ""
  | [(k, v)] => "\"" ++ k ++ "\": " ++ jsonDumps v
  | (k, v) :: e :: rest =>
    "\"" ++ k ++ "\": " ++ jsonDumps v ++ ", " ++ jsonDumpsKVs (e :: rest)

end

mutual

/-- Python `repr` of a value (string escaping elided as for `jsonDumps`). -/
def pyRepr : PyVal → String
  | .vnone => "None"
  | .vbool b => if b then "True" else "False"
  | .vint n => toString n
  | .vfloat n => toString n ++ ".0"
  | .vstr s => "'" ++ s ++ "'"
  | .vlist xs => "[" ++ pyReprList xs ++ "]"
  | .vdict kvs => "\x7b" ++ pyReprKVs kvs ++ "\x7d"

/-- Comma-separated `repr` rendering of list elements. -/
def pyReprList : List PyVal → String
  | [] => ""
  | [x] => pyRepr x
  | x :: y :: rest => pyRepr x ++ ", " ++ pyReprList (y :: rest)

/-- Comma-separated `repr` rendering of dict entries. -/
def pyReprKVs : List (String × PyVal) → String
  | [] => ""
  | [(k, v)] => "'" ++ k ++ "': " ++ pyRepr v
  | (k, v) :: e :: rest =>
    "'" ++ k ++ "': " ++ pyRepr v ++ ", " ++ pyReprKVs (e :: rest)

end

/-- Python `str` of a value: identity on strings, `repr` otherwise. -/
def pyStr : PyVal → String
  | .vstr s => s
  | v => pyRepr v

example : strContains "calculate 2+2" "2+2" = true := by decide
example : strContains "derivative of 2+2" "calculate" = false := by decide
example : lowerStr "Calculate 2+2" = "calculate 2+2" := by decide

/-! ## The API manager (`src/api_integration_manager.py`) -/

/-- A service adapter: the pair of methods every adapter class exposes.
Both may raise, modelled by `Except String`. -/
structure Adapter where
  make_call : String → PyVal → Except String PyVal
  get_offline_response : String → PyVal → Except String PyVal

/-- A cache entry as stored by `make_api_call`:
`{'data': result, 'timestamp': time.time()}`.
Time is modelled as a natural number of seconds. -/
structure CacheEntry where
  data : PyVal
  timestamp : Nat

/-- The mutable attributes of `LightweightAPIManager`. -/
structure ManagerState where
  service_registry : List (String × Adapter)
  cache : List (String × CacheEntry)
  cache_ttl : Nat
  offline_mode : Bool
  api_health : List (String × PyVal)

/-- Which adapter method an execution of `make_api_call` invoked. -/
inductive AdapterMethod where
  | makeCall : AdapterMethod
  | getOfflineResponse : AdapterMethod
deriving DecidableEq, Repr

/-- Model of `LightweightAPIManager._error_response`: the standard error envelope.
`nowIso` models `datetime.now().isoformat()`. -/
def error_response (st : ManagerState) (nowIso : String) (message : String) : PyVal :=
  .vdict [("success", .vbool false),
          ("error", .vstr message),
          ("timestamp", .vstr nowIso),
          ("offline_mode", .vbool st.offline_mode)]

/-- The cache write `self.cache[cache_key] = {'data': result, 'timestamp': time.time()}`. -/
def cache_store (st : ManagerState) (now : Nat) (k : String) (result : PyVal) : ManagerState :=
  { st with cache := (k, ⟨result, now⟩) :: st.cache }

/-- The adapter call selected by `offline_mode`:
`adapter.get_offline_response(...)` when offline, `adapter.make_call(...)`
when online. -/
def dispatch (st : ManagerState) (a : Adapter) (endpoint : String) (params : PyVal) :
    Except String PyVal :=
  if st.offline_mode then a.get_offline_response endpoint params
  else a.make_call endpoint params

/-- The adapter method that `dispatch` invokes. -/
def dispatch_ev (st : ManagerState) : AdapterMethod :=
  if st.offline_mode then .getOfflineResponse else .makeCall

/-- The `try` block of `make_api_call` after a cache miss: dispatch to the
adapter by `offline_mode`, cache a successful result when the cache key is
truthy, convert any raised exception to the error envelope.  The returned
list records which adapter method was invoked. -/
def adapter_branch (st : ManagerState) (a : Adapter) (now : Nat) (nowIso : String)
    (endpoint : String) (params : PyVal) (cache_key : Option String) :
    PyVal × ManagerState × List AdapterMethod :=
  let ev : AdapterMethod := dispatch_ev st
  match dispatch st a endpoint params with
  | .error e => (error_response st nowIso ("API call failed: " ++ e), st, [ev])
  | .ok result =>
    match cache_key with
    | Option.none => (result, st, [ev])
    | Option.some k =>
      if k = "" then (result, st, [ev])
      else
        match PyVal.get result "success" with
        | .error e => (error_response st nowIso ("API call failed: " ++ e), st, [ev])
        | .ok v =>
          if truthy v then (result, cache_store st now k result, [ev])
          else (result, st, [ev])

/-- Model of `LightweightAPIManager.make_api_call` itself.  `now` models `time.time()`,
`nowIso` models `datetime.now().isoformat()`; the Python `cache_key=None`
default is the `Option.none` case, and an empty string is falsy, so the
cache is consulted only for a non-empty key. -/
def make_api_call (st : ManagerState) (now : Nat) (nowIso : String)
    (service_name endpoint : String) (params : PyVal) (cache_key : Option String) :
    PyVal × ManagerState × List AdapterMethod :=
  match alookup st.service_registry service_name with
  | Option.none =>
    (error_response st nowIso ("Service " ++ service_name ++ " not available"), st, [])
  | Option.some adapter =>
    match cache_key with
    | Option.some k =>
      if k = "" then adapter_branch st adapter now nowIso endpoint params cache_key
      else
        match alookup st.cache k with
        | Option.some cached_data =>
          if now - cached_data.timestamp < st.cache_ttl then (cached_data.data, st, [])
          else adapter_branch st adapter now nowIso endpoint params cache_key
        | Option.none => adapter_branch st adapter now nowIso endpoint params cache_key
    | Option.none => adapter_branch st adapter now nowIso endpoint params cache_key

/-- The environment of `_check_connectivity`: the `requests` import may be
missing, the probe may raise, or it returns a status code. -/
inductive ConnEnv where
  | noRequests : ConnEnv
  | probeRaises : ConnEnv
  | probeStatus : Nat → ConnEnv

/-- Model of `LightweightAPIManager._check_connectivity`: the resulting value of
`offline_mode`. -/
def check_connectivity : ConnEnv → Bool
  | .noRequests => true
  | .probeRaises => true
  | .probeStatus code => code != 200

/-! ## The concrete adapters registered by `_initialize_services` -/

/-- Model of `WolframAlphaAdapter._calculate_basic_derivative`. -/
def calculate_basic_derivative (query : String) : Option String :=
  if strContains query "x^2" then Option.some "2x"
  else if strContains query "sin(x)" then Option.some "cos(x)"
  else if strContains query "cos(x)" then Option.some "-sin(x)"
  else if strContains query "e^x" then Option.some "e^x"
  else Option.none

/-- Model of `WolframAlphaAdapter._calculate_basic_integral`. -/
def calculate_basic_integral (query : String) : Option String :=
  if strContains query "2x" then Option.some "x^2 + C"
  else if strContains query "cos(x)" then Option.some "sin(x) + C"
  else if strContains query "sin(x)" then Option.some "-cos(x) + C"
  else Option.none

/-- Model of `WolframAlphaAdapter._solve_basic_equation`. -/
def solve_basic_equation (query : String) : Option String :=
  if strContains query "2x = 8" then Option.some "x = 4"
  else if strContains query "x + 5 = 12" then Option.some "x = 7"
  else if strContains query "x^2 = 16" then Option.some "x = 4 or x = -4"
  else Option.none

/-- Model of `WolframAlphaAdapter._calculate_expression`. -/
def calculate_expression (query : String) : Option String :=
  if strContains query "2+2" then Option.some "4"
  else if strContains query "5*8" then Option.some "40"
  else if strContains query "15/3" then Option.some "5"
  else Option.none

/-- One iteration of the `math_responses` loop: the calculator runs only
when its key occurs in the query, and its result counts only when truthy
(every calculator returns a non-empty string or `None`). -/
def try_math_response (query mathType : String) (f : String → Option String) :
    Option String :=
  if strContains query mathType then f query else Option.none

/-- The `math_responses` loop of `get_offline_response`, in insertion
order: derivative, integral, solve, calculate. -/
def wolfram_offline_result (query : String) : Option String :=
  (try_math_response query "derivative" calculate_basic_derivative).orElse fun _ =>
  (try_math_response query "integral" calculate_basic_integral).orElse fun _ =>
  (try_math_response query "solve" solve_basic_equation).orElse fun _ =>
  try_math_response query "calculate" calculate_expression

/-- Model of `WolframAlphaAdapter.get_offline_response`. -/
def wolfram_get_offline_response (_endpoint : String) (params : PyVal) :
    Except String PyVal := do
  let q ← params.getD "query" (.vstr "")
  let query ← pyLower q
  match wolfram_offline_result query with
  | Option.some r =>
    pure (.vdict [("success", .vbool true), ("data", .vstr r),
                  ("source", .vstr "offline_math"), ("cached", .vbool false)])
  | Option.none =>
    pure (.vdict [("success", .vbool false),
                  ("error", .vstr "Offline math computation not available for this query"),
                  ("suggestion", .vstr "Try basic arithmetic, derivatives, or integrals")])

/-- The environment of `WolframAlphaAdapter`: the `WOLFRAM_ALPHA_API_KEY`
variable and the behaviour of `requests.get(...).json()` for a query
(an `error` models any raised exception). -/
structure WolframEnv where
  api_key : Option String
  network : String → PyVal → Except String PyVal

/-- Model of `{'appid': self.api_key, **params}`: raises `TypeError` unless
`params` is a mapping. -/
def wolfram_full_params (key : String) (params : PyVal) : Except String PyVal :=
  match params with
  | .vdict kvs => Except.ok (.vdict (("appid", .vstr key) :: kvs))
  | _ => Except.error "TypeError: argument after ** must be a mapping"

/-- Model of `WolframAlphaAdapter._parse_response`. -/
def wolfram_parse_response (data : PyVal) : Except String PyVal := do
  let r ← data.getD "result" (.vstr "No result available")
  let s ← data.getD "steps" (.vlist [])
  let v ← data.getD "visualization" (.vstr "")
  pure (.vdict [("result", r), ("steps", s), ("visualization", v)])

/-- The `try` body of `WolframAlphaAdapter.make_call`: build the full
parameter dict, perform the network request, parse the response. -/
def wolfram_try_call (env : WolframEnv) (endpoint key : String) (params : PyVal) :
    Except String PyVal := do
  let fp ← wolfram_full_params key params
  let resp ← env.network endpoint fp
  let parsed ← wolfram_parse_response resp
  pure (.vdict [("success", .vbool true), ("data", parsed),
                ("source", .vstr "wolfram_alpha")])

/-- Model of `WolframAlphaAdapter.make_call`: without a key, fall through to the
offline response; with one, any exception in the network call or response
parsing falls back to the offline response. -/
def wolfram_make_call (env : WolframEnv) (endpoint : String) (params : PyVal) :
    Except String PyVal :=
  match env.api_key with
  | Option.none => wolfram_get_offline_response endpoint params
  | Option.some key =>
    match wolfram_try_call env endpoint key params with
    | .ok r => Except.ok r
    | .error _ => wolfram_get_offline_response endpoint params

/-- Model of `WolframAlphaAdapter` as an `Adapter`. -/
def wolframAdapter (env : WolframEnv) : Adapter :=
  { make_call := wolfram_make_call env,
    get_offline_response := wolfram_get_offline_response }

/-- Model of `MathComputationAdapter`. -/
def mathComputationAdapter : Adapter :=
  { make_call := fun _ _ =>
      Except.ok (.vdict [("success", .vbool true),
                         ("data", .vdict [("message", .vstr "Math computation service ready")]),
                         ("source", .vstr "math_computation")]),
    get_offline_response := fun _ _ =>
      Except.ok (.vdict [("success", .vbool true),
                         ("data", .vdict [("message", .vstr "Offline math computation available")]),
                         ("source", .vstr "offline_math")]) }

/-- Model of `CalendarAdapter._simulate_calendar_events`; `today` models
`datetime.now().strftime('%Y-%m-%d')`. -/
def simulate_calendar_events (today : String) : PyVal :=
  .vdict [("events", .vlist [
            .vdict [("title", .vstr "Team Meeting"), ("time", .vstr "10:00 AM"),
                    ("date", .vstr today)],
            .vdict [("title", .vstr "Project Review"), ("time", .vstr "2:00 PM"),
                    ("date", .vstr today)]]),
          ("source", .vstr "simulated_calendar")]

/-- Model of `CalendarAdapter` (its `get_offline_response` delegates to `make_call`). -/
def calendarAdapter (today : String) : Adapter :=
  let call : String → PyVal → Except String PyVal := fun _ _ =>
    Except.ok (.vdict [("success", .vbool true), ("data", simulate_calendar_events today),
                       ("source", .vstr "calendar_simulation")])
  { make_call := call, get_offline_response := call }

/-- Model of `TaskAdapter._simulate_tasks`. -/
def simulate_tasks : PyVal :=
  .vdict [("tasks", .vlist [
    .vdict [("id", .vint 1), ("title", .vstr "Complete API integration"), ("completed", .vbool false)],
    .vdict [("id", .vint 2), ("title", .vstr "Test offline functionality"), ("completed", .vbool true)],
    .vdict [("id", .vint 3), ("title", .vstr "Document new features"), ("completed", .vbool false)]])]

/-- Model of `TaskAdapter`. -/
def taskAdapter : Adapter :=
  let call : String → PyVal → Except String PyVal := fun _ _ =>
    Except.ok (.vdict [("success", .vbool true), ("data", simulate_tasks),
                       ("source", .vstr "task_simulation")])
  { make_call := call, get_offline_response := call }

/-- Model of `DataAnalysisAdapter._simulate_analysis`: reads
`params.get('dataset', 'sales')`, so raises on a non-mapping `params`. -/
def simulate_analysis (params : PyVal) : Except String PyVal := do
  let dataset ← params.getD "dataset" (.vstr "sales")
  pure (.vdict [
    ("insights", .vlist [
      .vstr ("Trend analysis for " ++ pyStr dataset ++ ": Positive growth detected"),
      .vstr "Correlation: Marketing spend strongly correlates with revenue",
      .vstr "Recommendation: Increase investment in top-performing channels"]),
    ("metrics", .vdict [("growth_rate", .vstr "15.2%"),
                        ("correlation_strength", .vstr "0.78"),
                        ("confidence", .vstr "95%")])])

/-- Model of `DataAnalysisAdapter`. -/
def dataAnalysisAdapter : Adapter :=
  let call : String → PyVal → Except String PyVal := fun _ params => do
    let d ← simulate_analysis params
    pure (.vdict [("success", .vbool true), ("data", d), ("source", .vstr "data_analysis")])
  { make_call := call, get_offline_response := call }

/-- Model of `AccountingAdapter._simulate_accounting_data`. -/
def simulate_accounting_data : PyVal :=
  .vdict [("financial_statements", .vdict [
            ("balance_sheet", .vdict [("assets", .vint 150000), ("liabilities", .vint 75000),
                                      ("equity", .vint 75000)]),
            ("income_statement", .vdict [("revenue", .vint 50000), ("expenses", .vint 35000),
                                         ("net_income", .vint 15000)])]),
          ("health_metrics", .vdict [("current_ratio", .vfloat 2), ("debt_to_equity", .vfloat 1),
                                     ("profit_margin", .vstr "30%")])]

/-- Model of `AccountingAdapter`. -/
def accountingAdapter : Adapter :=
  let call : String → PyVal → Except String PyVal := fun _ _ =>
    Except.ok (.vdict [("success", .vbool true), ("data", simulate_accounting_data),
                       ("source", .vstr "accounting_simulation")])
  { make_call := call, get_offline_response := call }

/-- Model of `AgricultureAdapter._simulate_agriculture_data`. -/
def simulate_agriculture_data : PyVal :=
  .vdict [("field_metrics", .vdict [("soil_moisture", .vstr "45%"),
                                    ("temperature", .vstr "22Â°C"),
                                    ("humidity", .vstr "65%")]),
          ("crop_health", .vstr "Good"),
          ("recommendations", .vlist [
            .vstr "Optimal planting conditions detected",
            .vstr "Consider irrigation in 3 days",
            .vstr "Pest risk: Low"])]

/-- Model of `AgricultureAdapter`. -/
def agricultureAdapter : Adapter :=
  let call : String → PyVal → Except String PyVal := fun _ _ =>
    Except.ok (.vdict [("success", .vbool true), ("data", simulate_agriculture_data),
                       ("source", .vstr "agriculture_simulation")])
  { make_call := call, get_offline_response := call }

/-- Model of `ProjectManagementAdapter._simulate_project_data`. -/
def simulate_project_data : PyVal :=
  .vdict [("projects", .vlist [
            .vdict [("name", .vstr "ZaraAI Phase 5"), ("progress", .vstr "75%"),
                    ("milestones", .vlist [.vstr "API Foundation", .vstr "Domain Integration",
                                           .vstr "Testing"]),
                    ("status", .vstr "On Track")]]),
          ("team_metrics", .vdict [("productivity", .vstr "88%"), ("burnout_risk", .vstr "Low"),
                                   ("collaboration", .vstr "High")])]

/-- Model of `ProjectManagementAdapter`. -/
def projectManagementAdapter : Adapter :=
  let call : String → PyVal → Except String PyVal := fun _ _ =>
    Except.ok (.vdict [("success", .vbool true), ("data", simulate_project_data),
                       ("source", .vstr "project_management_simulation")])
  { make_call := call, get_offline_response := call }

/-- Model of `RelationshipAdapter._analyze_relationship`: reads
`params.get('context', 'general')` (unused afterwards), so raises on a
non-mapping `params`. -/
def analyze_relationship (params : PyVal) : Except String PyVal := do
  let _ ← params.getD "context" (.vstr "general")
  pure (.vdict [
    ("insights", .vlist [
      .vstr "Communication patterns: Healthy and open",
      .vstr "Emotional connection: Strong and growing",
      .vstr "Conflict resolution: Effective and respectful"]),
    ("suggestions", .vlist [
      .vstr "Schedule quality time this weekend",
      .vstr "Practice active listening techniques",
      .vstr "Express appreciation daily"]),
    ("health_score", .vstr "9.2/10")])

/-- Model of `RelationshipAdapter`. -/
def relationshipAdapter : Adapter :=
  let call : String → PyVal → Except String PyVal := fun _ params => do
    let d ← analyze_relationship params
    pure (.vdict [("success", .vbool true), ("data", d), ("source", .vstr "relationship_analysis")])
  { make_call := call, get_offline_response := call }

/-- The run environment of `LightweightAPIManager.__init__`. -/
structure InitEnv where
  wolfram : WolframEnv
  today : String
  conn : ConnEnv

/-- The registry built by `_initialize_services`. -/
def service_registry_full (env : InitEnv) : List (String × Adapter) :=
  [("wolfram_alpha", wolframAdapter env.wolfram),
   ("math_computation", mathComputationAdapter),
   ("calendar_simulator", calendarAdapter env.today),
   ("task_simulator", taskAdapter),
   ("data_analysis", dataAnalysisAdapter),
   ("accounting_simulator", accountingAdapter),
   ("agriculture_simulator", agricultureAdapter),
   ("project_simulator", projectManagementAdapter),
   ("relationship_analyzer", relationshipAdapter)]

/-- The state produced by `LightweightAPIManager.__init__`: empty cache,
300-second TTL, `offline_mode` from the connectivity check. -/
def initState (env : InitEnv) : ManagerState :=
  { service_registry := service_registry_full env,
    cache := [],
    cache_ttl := 300,
    offline_mode := check_connectivity env.conn,
    api_health := [] }

/-- States of `LightweightAPIManager` reachable from `__init__` by any
sequence of `make_api_call` invocations. -/
inductive Reachable : ManagerState → Prop where
  | init (env : InitEnv) : Reachable (initState env)
  | step (st : ManagerState) (now : Nat) (nowIso sn ep : String) (p : PyVal)
      (ck : Option String) : Reachable st →
      Reachable (make_api_call st now nowIso sn ep p ck).2.1

/-! ## `DefendIQSecurity` (`src/phase8-enterprise_integration.py`) -/

/-- The attributes set by `DefendIQSecurity.__init__`. -/
structure SecurityState where
  security_levels : PyVal
  threat_detection : PyVal
  encryption_engine : PyVal

/-- The table returned by the security-level setup of `DefendIQSecurity`. -/
def security_levels_table : PyVal :=
  .vdict [("public", .vdict [("encryption", .vbool false),
                             ("authentication", .vstr "basic"),
                             ("logging", .vstr "minimal"),
                             ("retention", .vstr "30 days")]),
          ("confidential", .vdict [("encryption", .vbool true),
                                   ("authentication", .vstr "multi_factor"),
                                   ("logging", .vstr "detailed"),
                                   ("retention", .vstr "1 year")]),
          ("highly_sensitive", .vdict [("encryption", .vstr "end_to_end"),
                                       ("authentication", .vstr "biometric_plus"),
                                       ("logging", .vstr "audit_grade"),
                                       ("retention", .vstr "7 years")])]

/-- The plaintext that `_encrypt_data` encrypts:
`json.dumps(data)` when the data is a dict, `str(data)` otherwise. -/
def encrypt_plaintext (data : PyVal) : String :=
  match data with
  | .vdict _ => jsonDumps data
  | _ => pyStr data

/-- Model of `DefendIQSecurity._encrypt_data`.  `fernetEncrypt` models
`Fernet(key).encrypt(...).decode()` for a generated key; `key` models the
fresh key produced by `Fernet.generate_key()` during this one call;
`cryptoAvailable` models whether the `cryptography` import succeeded.
The method reads no attribute of `self` and assigns none, so it is
modelled as returning the `SecurityState` unchanged.  The modelled cipher
is a total function, so the source's `except` fallback (returning the data
with a `'warning'` entry) is unreachable in the model and the `try` body
is translated directly. -/
def encrypt_data (fernetEncrypt : Nat → String → String) (key : Nat)
    (cryptoAvailable : Bool) (st : SecurityState) (data security_config : PyVal) :
    Except String (PyVal × SecurityState) := do
  let enc ← pyItem security_config "encryption"
  if !truthy enc || !cryptoAvailable then
    pure (data, st)
  else
    pure (.vdict [("encrypted", .vbool true),
                  ("data", .vstr (fernetEncrypt key (encrypt_plaintext data))),
                  ("key_id", .vstr "env_derived")], st)

/-! ## Helper lemmas about `make_api_call` -/

theorem alookup_cons {α : Type} (k : String) (v : α) (l : List (String × α))
    (key : String) :
    alookup ((k, v) :: l) key = if k = key then Option.some v else alookup l key := rfl

/-- A `.get` that returns normally implies the receiver is a dict. -/
theorem get_ok_vdict {v w : PyVal} {key : String} (h : PyVal.get v key = Except.ok w) :
    ∃ kvs, v = .vdict kvs := by
  cases v <;> simp [PyVal.get] at h
  exact ⟨_, rfl⟩

/-- No fresh cache hit is available for the given key at the given time. -/
def cacheMiss (st : ManagerState) (now : Nat) (ck : Option String) : Prop :=
  ∀ k e, ck = Option.some k → k ≠ "" → alookup st.cache k = Option.some e →
    ¬(now - e.timestamp < st.cache_ttl)

theorem mac_unknown {st : ManagerState} {now : Nat} {nowIso sn ep : String}
    {p : PyVal} {ck : Option String}
    (h : alookup st.service_registry sn = Option.none) :
    make_api_call st now nowIso sn ep p ck =
      (error_response st nowIso ("Service " ++ sn ++ " not available"), st, []) := by
  simp [make_api_call, h]

theorem mac_hit {st : ManagerState} {now : Nat} {nowIso sn ep : String}
    {p : PyVal} {a : Adapter} {k : String} {e : CacheEntry}
    (h : alookup st.service_registry sn = Option.some a)
    (hk : k ≠ "") (hc : alookup st.cache k = Option.some e)
    (hf : now - e.timestamp < st.cache_ttl) :
    make_api_call st now nowIso sn ep p (Option.some k) = (e.data, st, []) := by
  simp [make_api_call, h, hk, hc, hf]

theorem mac_miss {st : ManagerState} {now : Nat} {nowIso sn ep : String}
    {p : PyVal} {ck : Option String} {a : Adapter}
    (h : alookup st.service_registry sn = Option.some a)
    (hm : cacheMiss st now ck) :
    make_api_call st now nowIso sn ep p ck = adapter_branch st a now nowIso ep p ck := by
  unfold make_api_call
  rw [h]
  cases ck with
  | none => rfl
  | some k =>
    by_cases hk : k = ""
    · simp [hk]
    · cases hc : alookup st.cache k with
      | none => simp [hk, hc]
      | some e => simp [hk, hc, hm k e rfl hk hc]

theorem ab_callfail {st : ManagerState} {a : Adapter} {now : Nat} {nowIso ep : String}
    {p : PyVal} {ck : Option String} {e : String}
    (he : dispatch st a ep p = Except.error e) :
    adapter_branch st a now nowIso ep p ck =
      (error_response st nowIso ("API call failed: " ++ e), st, [dispatch_ev st]) := by
  simp [adapter_branch, he]

theorem ab_ok_nokey {st : ManagerState} {a : Adapter} {now : Nat} {nowIso ep : String}
    {p : PyVal} {r : PyVal} (ho : dispatch st a ep p = Except.ok r) :
    adapter_branch st a now nowIso ep p Option.none = (r, st, [dispatch_ev st]) := by
  simp [adapter_branch, ho]

theorem ab_ok_emptykey {st : ManagerState} {a : Adapter} {now : Nat} {nowIso ep : String}
    {p : PyVal} {r : PyVal} (ho : dispatch st a ep p = Except.ok r) :
    adapter_branch st a now nowIso ep p (Option.some "") = (r, st, [dispatch_ev st]) := by
  simp [adapter_branch, ho]

theorem ab_ok_getfail {st : ManagerState} {a : Adapter} {now : Nat} {nowIso ep : String}
    {p : PyVal} {r : PyVal} {k : String} {e : String}
    (ho : dispatch st a ep p = Except.ok r) (hk : k ≠ "")
    (hg : PyVal.get r "success" = Except.error e) :
    adapter_branch st a now nowIso ep p (Option.some k) =
      (error_response st nowIso ("API call failed: " ++ e), st, [dispatch_ev st]) := by
  simp [adapter_branch, ho, hk, hg]

theorem ab_ok_store {st : ManagerState} {a : Adapter} {now : Nat} {nowIso ep : String}
    {p : PyVal} {r v : PyVal} {k : String}
    (ho : dispatch st a ep p = Except.ok r) (hk : k ≠ "")
    (hg : PyVal.get r "success" = Except.ok v) (hv : truthy v = true) :
    adapter_branch st a now nowIso ep p (Option.some k) =
      (r, cache_store st now k r, [dispatch_ev st]) := by
  simp [adapter_branch, ho, hk, hg, hv]

theorem ab_ok_nostore {st : ManagerState} {a : Adapter} {now : Nat} {nowIso ep : String}
    {p : PyVal} {r v : PyVal} {k : String}
    (ho : dispatch st a ep p = Except.ok r) (hk : k ≠ "")
    (hg : PyVal.get r "success" = Except.ok v) (hv : truthy v = false) :
    adapter_branch st a now nowIso ep p (Option.some k) = (r, st, [dispatch_ev st]) := by
  simp [adapter_branch, ho, hk, hg, hv]

/-- Case analysis on the state `adapter_branch` leaves behind: either the
state is untouched, or exactly one successful result was stored under the
call's non-empty cache key. -/
theorem ab_state_cases (st : ManagerState) (a : Adapter) (now : Nat) (nowIso ep : String)
    (p : PyVal) (ck : Option String) :
    (adapter_branch st a now nowIso ep p ck).2.1 = st ∨
    ∃ k v, ck = Option.some k ∧ k ≠ "" ∧
      PyVal.get (adapter_branch st a now nowIso ep p ck).1 "success" = Except.ok v ∧
      truthy v = true ∧
      (adapter_branch st a now nowIso ep p ck).2.1 =
        cache_store st now k (adapter_branch st a now nowIso ep p ck).1 := by
  cases hd : dispatch st a ep p with
  | error e => left; rw [ab_callfail hd]
  | ok r =>
    cases ck with
    | none => left; rw [ab_ok_nokey hd]
    | some k =>
      by_cases hk : k = ""
      · left; subst hk; rw [ab_ok_emptykey hd]
      · cases hg : PyVal.get r "success" with
        | error e => left; rw [ab_ok_getfail hd hk hg]
        | ok v =>
          cases hv : truthy v with
          | false => left; rw [ab_ok_nostore hd hk hg hv]
          | true =>
            right
            refine ⟨k, v, rfl, hk, ?_, hv, ?_⟩ <;> rw [ab_ok_store hd hk hg hv]
            · exact hg

/-- The branch `adapter_branch` always records exactly the one dispatched method. -/
theorem ab_events (st : ManagerState) (a : Adapter) (now : Nat) (nowIso ep : String)
    (p : PyVal) (ck : Option String) :
    (adapter_branch st a now nowIso ep p ck).2.2 = [dispatch_ev st] := by
  cases hd : dispatch st a ep p with
  | error e => rw [ab_callfail hd]
  | ok r =>
    cases ck with
    | none => rw [ab_ok_nokey hd]
    | some k =>
      by_cases hk : k = ""
      · subst hk; rw [ab_ok_emptykey hd]
      · cases hg : PyVal.get r "success" with
        | error e => rw [ab_ok_getfail hd hk hg]
        | ok v =>
          cases hv : truthy v with
          | false => rw [ab_ok_nostore hd hk hg hv]
          | true => rw [ab_ok_store hd hk hg hv]

/-- Either `make_api_call` took an error/hit path with nothing dispatched,
or it reduced to `adapter_branch` on the registered adapter after a cache
miss. -/
theorem mac_paths (st : ManagerState) (now : Nat) (nowIso sn ep : String)
    (p : PyVal) (ck : Option String) :
    ((make_api_call st now nowIso sn ep p ck).2.1 = st ∧
     (make_api_call st now nowIso sn ep p ck).2.2 = []) ∨
    ∃ a, alookup st.service_registry sn = Option.some a ∧
      make_api_call st now nowIso sn ep p ck = adapter_branch st a now nowIso ep p ck := by
  cases hreg : alookup st.service_registry sn with
  | none => left; rw [mac_unknown hreg]; exact ⟨rfl, rfl⟩
  | some a =>
    cases ck with
    | none => right; exact ⟨a, rfl, mac_miss hreg (by intro k e h; cases h)⟩
    | some k =>
      by_cases hk : k = ""
      · right
        refine ⟨a, rfl, mac_miss hreg ?_⟩
        intro k' e h hk'
        cases h
        subst hk
        exact absurd rfl hk'
      · cases hc : alookup st.cache k with
        | none =>
          right
          refine ⟨a, rfl, mac_miss hreg ?_⟩
          intro k' e h _ hc'
          cases h
          rw [hc] at hc'
          cases hc'
        | some e =>
          by_cases hf : now - e.timestamp < st.cache_ttl
          · left; rw [mac_hit hreg hk hc hf]; exact ⟨rfl, rfl⟩
          · right
            refine ⟨a, rfl, mac_miss hreg ?_⟩
            intro k' e' h _ hc'
            cases h
            rw [hc] at hc'
            cases hc'
            exact hf

/-- Case analysis on the state `make_api_call` leaves behind. -/
theorem mac_state_cases (st : ManagerState) (now : Nat) (nowIso sn ep : String)
    (p : PyVal) (ck : Option String) :
    (make_api_call st now nowIso sn ep p ck).2.1 = st ∨
    ∃ k v, ck = Option.some k ∧ k ≠ "" ∧
      PyVal.get (make_api_call st now nowIso sn ep p ck).1 "success" = Except.ok v ∧
      truthy v = true ∧
      (make_api_call st now nowIso sn ep p ck).2.1 =
        cache_store st now k (make_api_call st now nowIso sn ep p ck).1 := by
  rcases mac_paths st now nowIso sn ep p ck with ⟨hst, _⟩ | ⟨a, _, heq⟩
  · left; exact hst
  · rw [heq]; exact ab_state_cases st a now nowIso ep p ck



/-! ## Shape of the registered adapters' results -/

theorem bind_ok {α β : Type} (a : α) (f : α → Except String β) :
    (Except.ok a >>= f) = f a := rfl

theorem bind_err {α β : Type} (e : String) (f : α → Except String β) :
    ((Except.error e : Except String α) >>= f) = Except.error e := rfl

/-- Each method of the adapter either raises or returns a dict. -/
def AdapterOK (a : Adapter) : Prop :=
  ∀ ep p,
    ((∃ e, a.make_call ep p = Except.error e) ∨
     (∃ kvs, a.make_call ep p = Except.ok (.vdict kvs))) ∧
    ((∃ e, a.get_offline_response ep p = Except.error e) ∨
     (∃ kvs, a.get_offline_response ep p = Except.ok (.vdict kvs)))

theorem wolfram_offline_shape (ep : String) (p : PyVal) :
    (∃ e, wolfram_get_offline_response ep p = Except.error e) ∨
    (∃ kvs, wolfram_get_offline_response ep p = Except.ok (.vdict kvs)) := by
  unfold wolfram_get_offline_response
  cases p
  case vdict kvs =>
    rw [show PyVal.getD (.vdict kvs) "query" (.vstr "") =
          Except.ok ((alookup kvs "query").getD (.vstr "")) from rfl, bind_ok]
    cases hq : (alookup kvs "query").getD (.vstr "")
    case vstr s =>
      rw [show pyLower (.vstr s) = Except.ok (lowerStr s) from rfl, bind_ok]
      cases wolfram_offline_result (lowerStr s)
      · exact Or.inr ⟨_, rfl⟩
      · exact Or.inr ⟨_, rfl⟩
    all_goals exact Or.inl ⟨_, rfl⟩
  all_goals exact Or.inl ⟨_, rfl⟩

/-- A normal return of the `try` body carries the success dict. -/
theorem wolfram_try_call_ok {env : WolframEnv} {ep key : String} {p r : PyVal}
    (h : wolfram_try_call env ep key p = Except.ok r) : ∃ kvs, r = .vdict kvs := by
  unfold wolfram_try_call at h
  cases hfp : wolfram_full_params key p with
  | error e => rw [hfp, bind_err] at h; cases h
  | ok fp =>
    rw [hfp, bind_ok] at h
    cases hn : env.network ep fp with
    | error e => rw [hn, bind_err] at h; cases h
    | ok resp =>
      rw [hn, bind_ok] at h
      cases hpr : wolfram_parse_response resp with
      | error e => rw [hpr, bind_err] at h; cases h
      | ok parsed =>
        rw [hpr, bind_ok] at h
        cases h
        exact ⟨_, rfl⟩

theorem wolfram_make_call_shape (env : WolframEnv) (ep : String) (p : PyVal) :
    (∃ e, wolfram_make_call env ep p = Except.error e) ∨
    (∃ kvs, wolfram_make_call env ep p = Except.ok (.vdict kvs)) := by
  cases henv : env.api_key with
  | none =>
    simp only [wolfram_make_call, henv]
    exact wolfram_offline_shape ep p
  | some key =>
    simp only [wolfram_make_call, henv]
    cases ht : wolfram_try_call env ep key p with
    | error e =>
      simp only [ht]
      exact wolfram_offline_shape ep p
    | ok r =>
      obtain ⟨kvs, hr⟩ := wolfram_try_call_ok ht
      simp only [ht, hr]
      exact Or.inr ⟨kvs, rfl⟩

theorem wolframAdapter_ok (env : WolframEnv) : AdapterOK (wolframAdapter env) := by
  intro ep p
  exact ⟨wolfram_make_call_shape env ep p, wolfram_offline_shape ep p⟩

theorem mathComputationAdapter_ok : AdapterOK mathComputationAdapter := by
  intro ep p
  exact ⟨Or.inr ⟨_, rfl⟩, Or.inr ⟨_, rfl⟩⟩

theorem calendarAdapter_ok (today : String) : AdapterOK (calendarAdapter today) := by
  intro ep p
  exact ⟨Or.inr ⟨_, rfl⟩, Or.inr ⟨_, rfl⟩⟩

theorem taskAdapter_ok : AdapterOK taskAdapter := by
  intro ep p
  exact ⟨Or.inr ⟨_, rfl⟩, Or.inr ⟨_, rfl⟩⟩

theorem dataAnalysisAdapter_ok : AdapterOK dataAnalysisAdapter := by
  intro ep p
  constructor <;>
    (cases p
     case vdict kvs => exact Or.inr ⟨_, rfl⟩
     all_goals exact Or.inl ⟨_, rfl⟩)

theorem accountingAdapter_ok : AdapterOK accountingAdapter := by
  intro ep p
  exact ⟨Or.inr ⟨_, rfl⟩, Or.inr ⟨_, rfl⟩⟩

theorem agricultureAdapter_ok : AdapterOK agricultureAdapter := by
  intro ep p
  exact ⟨Or.inr ⟨_, rfl⟩, Or.inr ⟨_, rfl⟩⟩

theorem projectManagementAdapter_ok : AdapterOK projectManagementAdapter := by
  intro ep p
  exact ⟨Or.inr ⟨_, rfl⟩, Or.inr ⟨_, rfl⟩⟩

theorem relationshipAdapter_ok : AdapterOK relationshipAdapter := by
  intro ep p
  constructor <;>
    (cases p
     case vdict kvs => exact Or.inr ⟨_, rfl⟩
     all_goals exact Or.inl ⟨_, rfl⟩)

/-- Every adapter registered by `_initialize_services` satisfies `AdapterOK`. -/
def registryGood (st : ManagerState) : Prop :=
  ∀ sn a, alookup st.service_registry sn = Option.some a → AdapterOK a

theorem registry_full_good (env : InitEnv) :
    ∀ sn a, alookup (service_registry_full env) sn = Option.some a → AdapterOK a := by
  intro sn a h
  simp only [service_registry_full, alookup] at h
  split_ifs at h
  · injection h with h; subst h; exact wolframAdapter_ok env.wolfram
  · injection h with h; subst h; exact mathComputationAdapter_ok
  · injection h with h; subst h; exact calendarAdapter_ok env.today
  · injection h with h; subst h; exact taskAdapter_ok
  · injection h with h; subst h; exact dataAnalysisAdapter_ok
  · injection h with h; subst h; exact accountingAdapter_ok
  · injection h with h; subst h; exact agricultureAdapter_ok
  · injection h with h; subst h; exact projectManagementAdapter_ok
  · injection h with h; subst h; exact relationshipAdapter_ok

/-! ## Invariants of reachable manager states -/

/-- Every cache entry holds a result whose `'success'` field exists and is
truthy (in particular the result is a dict). -/
def cacheWF (st : ManagerState) : Prop :=
  ∀ k e, alookup st.cache k = Option.some e →
    ∃ v, PyVal.get e.data "success" = Except.ok v ∧ truthy v = true

/-- A call of `make_api_call` changes no attribute of the manager besides `cache`. -/
theorem mac_frame (st : ManagerState) (now : Nat) (nowIso sn ep : String)
    (p : PyVal) (ck : Option String) :
    (make_api_call st now nowIso sn ep p ck).2.1.service_registry = st.service_registry ∧
    (make_api_call st now nowIso sn ep p ck).2.1.cache_ttl = st.cache_ttl ∧
    (make_api_call st now nowIso sn ep p ck).2.1.offline_mode = st.offline_mode ∧
    (make_api_call st now nowIso sn ep p ck).2.1.api_health = st.api_health := by
  rcases mac_state_cases st now nowIso sn ep p ck with hst | ⟨k, v, _, _, _, _, hstore⟩
  · rw [hst]; exact ⟨rfl, rfl, rfl, rfl⟩
  · rw [hstore]; exact ⟨rfl, rfl, rfl, rfl⟩

theorem mac_preserves_cacheWF {st : ManagerState} (h : cacheWF st) (now : Nat)
    (nowIso sn ep : String) (p : PyVal) (ck : Option String) :
    cacheWF (make_api_call st now nowIso sn ep p ck).2.1 := by
  rcases mac_state_cases st now nowIso sn ep p ck with hst | ⟨k, v, _, _, hget, hv, hstore⟩
  · rw [hst]; exact h
  · rw [hstore]
    intro k' e' h'
    rw [cache_store] at h'
    simp only [alookup_cons] at h'
    by_cases hek : k = k'
    · rw [if_pos hek] at h'
      injection h' with h'
      subst h'
      exact ⟨v, hget, hv⟩
    · rw [if_neg hek] at h'
      exact h k' e' h'

/-- The two invariants hold in every reachable manager state. -/
theorem reachable_wf : ∀ st, Reachable st → cacheWF st ∧ registryGood st := by
  intro st h
  induction h with
  | init env =>
    constructor
    · intro k e h'
      exact Option.noConfusion h'
    · exact registry_full_good env
  | step st now nowIso sn ep p ck _ ih =>
    constructor
    · exact mac_preserves_cacheWF ih.1 now nowIso sn ep p ck
    · intro sn' a h'
      rw [(mac_frame st now nowIso sn ep p ck).1] at h'
      exact ih.2 sn' a h'

/-- Fine-grained path analysis of `make_api_call`: unknown service, fresh
cache hit, or adapter branch after a cache miss. -/
theorem mac_paths_full (st : ManagerState) (now : Nat) (nowIso sn ep : String)
    (p : PyVal) (ck : Option String) :
    (alookup st.service_registry sn = Option.none ∧
      make_api_call st now nowIso sn ep p ck =
        (error_response st nowIso ("Service " ++ sn ++ " not available"), st, [])) ∨
    (∃ a k e, alookup st.service_registry sn = Option.some a ∧ ck = Option.some k ∧
      k ≠ "" ∧ alookup st.cache k = Option.some e ∧ now - e.timestamp < st.cache_ttl ∧
      make_api_call st now nowIso sn ep p ck = (e.data, st, [])) ∨
    (∃ a, alookup st.service_registry sn = Option.some a ∧ cacheMiss st now ck ∧
      make_api_call st now nowIso sn ep p ck = adapter_branch st a now nowIso ep p ck) := by
  cases hreg : alookup st.service_registry sn with
  | none => exact Or.inl ⟨rfl, mac_unknown hreg⟩
  | some a =>
    cases ck with
    | none =>
      refine Or.inr (Or.inr ⟨a, rfl, ?_, mac_miss hreg ?_⟩) <;>
        (intro k e h; cases h)
    | some k =>
      by_cases hk : k = ""
      · subst hk
        have hm : cacheMiss st now (Option.some "") := by
          intro k' e h hk'
          cases h
          exact absurd rfl hk'
        exact Or.inr (Or.inr ⟨a, rfl, hm, mac_miss hreg hm⟩)
      · cases hc : alookup st.cache k with
        | none =>
          have hm : cacheMiss st now (Option.some k) := by
            intro k' e h _ hc'
            cases h
            rw [hc] at hc'
            cases hc'
          exact Or.inr (Or.inr ⟨a, rfl, hm, mac_miss hreg hm⟩)
        | some e =>
          by_cases hf : now - e.timestamp < st.cache_ttl
          · exact Or.inr (Or.inl ⟨a, k, e, rfl, rfl, hk, hc, hf, mac_hit hreg hk hc hf⟩)
          · have hm : cacheMiss st now (Option.some k) := by
              intro k' e' h _ hc'
              cases h
              rw [hc] at hc'
              injection hc' with hc'
              subst hc'
              exact hf
            exact Or.inr (Or.inr ⟨a, rfl, hm, mac_miss hreg hm⟩)

/-- For an `AdapterOK` adapter, the dispatched call raises or returns a dict. -/
theorem dispatch_shape {a : Adapter} (h : AdapterOK a) (st : ManagerState)
    (ep : String) (p : PyVal) :
    (∃ e, dispatch st a ep p = Except.error e) ∨
    (∃ kvs, dispatch st a ep p = Except.ok (.vdict kvs)) := by
  unfold dispatch
  by_cases ho : st.offline_mode
  · rw [if_pos ho]; exact (h ep p).2
  · rw [if_neg ho]; exact (h ep p).1

/-- With good registry and cache, `make_api_call` always returns a dict,
and that dict is an error envelope, a cached result, or a dispatched
adapter result. -/
theorem mac_result_shape {st : ManagerState} (hr : registryGood st) (hc : cacheWF st)
    (now : Nat) (nowIso sn ep : String) (p : PyVal) (ck : Option String) :
    ∃ kvs, (make_api_call st now nowIso sn ep p ck).1 = .vdict kvs ∧
      ((∃ msg, (make_api_call st now nowIso sn ep p ck).1 = error_response st nowIso msg) ∨
       (∃ k e, ck = Option.some k ∧ alookup st.cache k = Option.some e ∧
          (make_api_call st now nowIso sn ep p ck).1 = e.data) ∨
       (∃ a r, alookup st.service_registry sn = Option.some a ∧
          dispatch st a ep p = Except.ok r ∧
          (make_api_call st now nowIso sn ep p ck).1 = r)) := by
  rcases mac_paths_full st now nowIso sn ep p ck with
    ⟨hreg, heq⟩ | ⟨a, k, e, hreg, hck, hk, hce, hf, heq⟩ | ⟨a, hreg, hm, heq⟩
  · rw [heq]
    exact ⟨_, rfl, Or.inl ⟨_, rfl⟩⟩
  · rw [heq]
    obtain ⟨v, hget, hv⟩ := hc k e hce
    obtain ⟨kvs, hkvs⟩ := get_ok_vdict hget
    exact ⟨kvs, hkvs, Or.inr (Or.inl ⟨k, e, hck, hce, rfl⟩)⟩
  · rw [heq]
    rcases dispatch_shape (hr sn a hreg) st ep p with ⟨e, hd⟩ | ⟨kvs, hd⟩
    · rw [ab_callfail hd]
      exact ⟨_, rfl, Or.inl ⟨_, rfl⟩⟩
    · cases ck with
      | none =>
        rw [ab_ok_nokey hd]
        exact ⟨kvs, rfl, Or.inr (Or.inr ⟨a, _, hreg, hd, rfl⟩)⟩
      | some k =>
        by_cases hk : k = ""
        · subst hk
          rw [ab_ok_emptykey hd]
          exact ⟨kvs, rfl, Or.inr (Or.inr ⟨a, _, hreg, hd, rfl⟩)⟩
        · have hget : PyVal.get (.vdict kvs) "success" =
              Except.ok ((alookup kvs "success").getD .vnone) := rfl
          cases hv : truthy ((alookup kvs "success").getD .vnone) with
          | true =>
            rw [ab_ok_store hd hk hget hv]
            exact ⟨kvs, rfl, Or.inr (Or.inr ⟨a, _, hreg, hd, rfl⟩)⟩
          | false =>
            rw [ab_ok_nostore hd hk hget hv]
            exact ⟨kvs, rfl, Or.inr (Or.inr ⟨a, _, hreg, hd, rfl⟩)⟩

/-! ## Concrete run environments used as witnesses -/

/-- A fully offline run: no `WOLFRAM_ALPHA_API_KEY`, and the
module `requests` missing. -/
def demoEnv : InitEnv :=
  { wolfram := { api_key := Option.none, network := fun _ _ => Except.error "offline" },
    today := "2026-10-12",
    conn := ConnEnv.noRequests }

/-- The manager state right after `__init__` in the offline run. -/
def demoState : ManagerState := initState demoEnv

/-- The offline response of `MathComputationAdapter`. -/
def demoStored : PyVal :=
  .vdict [("success", .vbool true),
          ("data", .vdict [("message", .vstr "Offline math computation available")]),
          ("source", .vstr "offline_math")]

/-- The state after one cached call to `math_computation` at time 0. -/
def demoState1 : ManagerState :=
  (make_api_call demoState 0 "t0" "math_computation" "compute" .vnone
    (Option.some "k")).2.1

example : demoState1.cache = [("k", ⟨demoStored, 0⟩)] := rfl

/-- An offline manager state with one entry cached at time 0 under "k". -/
def hitState : ManagerState :=
  { service_registry := service_registry_full demoEnv,
    cache := [("k", ⟨demoStored, 0⟩)],
    cache_ttl := 300,
    offline_mode := true,
    api_health := [] }

/-- An adapter whose both methods raise, for exercising the `except` path. -/
def boomAdapter : Adapter :=
  { make_call := fun _ _ => Except.error "boom",
    get_offline_response := fun _ _ => Except.error "boom" }

/-- An online manager whose only service always raises. -/
def boomState : ManagerState :=
  { service_registry := [("svc", boomAdapter)],
    cache := [],
    cache_ttl := 300,
    offline_mode := false,
    api_health := [] }

/-! ## Claims -/

/-- Claim C1, amended: for a call with a *registered* service name and a
*non-empty* cache key whose cached entry is strictly less than
`cache_ttl` (300) seconds old, `make_api_call` returns exactly the stored
result object, leaves the manager state untouched, and invokes no adapter
method.  (As literally stated the claim is refuted by
`c1_counterexample`: the registry is consulted before the cache, so an
unregistered service name returns the error envelope even when a fresh
entry exists under the supplied key.) -/
theorem c1_fresh_hit_returns_stored {st : ManagerState} {now : Nat}
    {nowIso sn ep : String} {p : PyVal} {a : Adapter} {k : String} {e : CacheEntry}
    (hreg : alookup st.service_registry sn = Option.some a)
    (hk : k ≠ "") (hc : alookup st.cache k = Option.some e)
    (hf : now - e.timestamp < st.cache_ttl) :
    make_api_call st now nowIso sn ep p (Option.some k) = (e.data, st, []) :=
  mac_hit hreg hk hc hf

/-- Claim C1 counterexample: in a reachable state whose cache holds an
entry under "k" that is only 10 seconds old, a call with an unregistered
service name and cache key "k" does not return the stored result. -/
theorem c1_counterexample :
    alookup demoState1.cache "k" = Option.some ⟨demoStored, 0⟩ ∧
    ((10 : Nat) - 0 < demoState1.cache_ttl) ∧
    (make_api_call demoState1 10 "t1" "no_such_service" "q" .vnone
      (Option.some "k")).1 ≠ demoStored := by
  refine ⟨rfl, by decide, ?_⟩
  intro h
  have h2 : Except.ok (PyVal.vbool false) = Except.ok (PyVal.vbool true) :=
    congrArg (fun v => PyVal.get v "success") h
  injection h2 with h3
  injection h3 with h4
  exact Bool.noConfusion h4

/-- Claim C1 witness: a fresh hit on the offline demo state. -/
theorem c1_witness :
    make_api_call hitState 10 "t1" "math_computation" "compute" .vnone
      (Option.some "k") = (demoStored, hitState, []) :=
  @c1_fresh_hit_returns_stored hitState 10 "t1" "math_computation" "compute" .vnone
    mathComputationAdapter "k" ⟨demoStored, 0⟩ rfl (by decide) rfl (by decide)

/-- Claim C2: with a registered service and a cache key whose stored entry
is 300 seconds old or older, the cached entry is bypassed: the adapter is
dispatched (online or offline method by `offline_mode`) and, when it
returns normally, its result is the value returned.  The `registryGood`
hypothesis holds in every reachable state (`reachable_wf`). -/
theorem c2_stale_entry_fresh_call {st : ManagerState} {now : Nat}
    {nowIso sn ep : String} {p r : PyVal} {a : Adapter} {k : String} {e : CacheEntry}
    (hg : registryGood st)
    (hreg : alookup st.service_registry sn = Option.some a)
    (hc : alookup st.cache k = Option.some e)
    (hstale : ¬(now - e.timestamp < st.cache_ttl))
    (hd : dispatch st a ep p = Except.ok r) :
    (make_api_call st now nowIso sn ep p (Option.some k)).1 = r ∧
    (make_api_call st now nowIso sn ep p (Option.some k)).2.2 = [dispatch_ev st] := by
  have hm : cacheMiss st now (Option.some k) := by
    intro k' e' hkk _ hc'
    cases hkk
    rw [hc] at hc'
    injection hc' with hc'
    subst hc'
    exact hstale
  rw [mac_miss hreg hm]
  rcases dispatch_shape (hg sn a hreg) st ep p with ⟨e', hd'⟩ | ⟨kvs, hd'⟩
  · rw [hd'] at hd; cases hd
  · rw [hd'] at hd
    injection hd with hd
    subst hd
    by_cases hk : k = ""
    · subst hk; rw [ab_ok_emptykey hd']; exact ⟨rfl, rfl⟩
    · have hget : PyVal.get (.vdict kvs) "success" =
          Except.ok ((alookup kvs "success").getD .vnone) := rfl
      cases hv : truthy ((alookup kvs "success").getD .vnone) with
      | true => rw [ab_ok_store hd' hk hget hv]; exact ⟨rfl, rfl⟩
      | false => rw [ab_ok_nostore hd' hk hget hv]; exact ⟨rfl, rfl⟩

/-- Claim C2 witness: the entry stored at time 0 is exactly 300 seconds
old at time 300, so the offline adapter method is invoked and its fresh
result returned. -/
theorem c2_witness :
    (make_api_call hitState 300 "t1" "math_computation" "compute" .vnone
      (Option.some "k")).1 = demoStored ∧
    (make_api_call hitState 300 "t1" "math_computation" "compute" .vnone
      (Option.some "k")).2.2 = [AdapterMethod.getOfflineResponse] :=
  @c2_stale_entry_fresh_call hitState 300 "t1" "math_computation" "compute" .vnone
    demoStored mathComputationAdapter "k" ⟨demoStored, 0⟩
    (fun sn a h => registry_full_good demoEnv sn a h) rfl rfl (by decide) rfl

/-- Claim C3: an unregistered service name yields the standard error
envelope — `success` False, the error message string, the timestamp and
the current `offline_mode` flag — invokes no adapter method and leaves
the whole manager state (cache included) unchanged. -/
theorem c3_unknown_service {st : ManagerState} {now : Nat} {nowIso sn ep : String}
    {p : PyVal} {ck : Option String}
    (h : alookup st.service_registry sn = Option.none) :
    make_api_call st now nowIso sn ep p ck =
      (.vdict [("success", .vbool false),
               ("error", .vstr ("Service " ++ sn ++ " not available")),
               ("timestamp", .vstr nowIso),
               ("offline_mode", .vbool st.offline_mode)], st, []) :=
  mac_unknown h

/-- Claim C3 witness: the offline demo manager knows no service
"no_such_service". -/
theorem c3_witness :
    make_api_call demoState 0 "t" "no_such_service" "q" .vnone Option.none =
      (.vdict [("success", .vbool false),
               ("error", .vstr "Service no_such_service not available"),
               ("timestamp", .vstr "t"),
               ("offline_mode", .vbool true)], demoState, []) :=
  c3_unknown_service rfl

/-- Claim C4: `offline_mode` is set whenever the `requests` import is
missing, the connectivity probe raises, or the probe's status code is not
200; and whenever `make_api_call` reaches an adapter, the method invoked
is `get_offline_response` exactly when `offline_mode` is set and
`make_call` exactly when it is clear. -/
theorem c4_offline_selection :
    check_connectivity ConnEnv.noRequests = true ∧
    check_connectivity ConnEnv.probeRaises = true ∧
    (∀ code, code ≠ 200 → check_connectivity (ConnEnv.probeStatus code) = true) ∧
    (∀ st now nowIso sn ep p ck m,
      m ∈ (make_api_call st now nowIso sn ep p ck).2.2 →
      (st.offline_mode = true → m = AdapterMethod.getOfflineResponse) ∧
      (st.offline_mode = false → m = AdapterMethod.makeCall)) := by
  refine ⟨rfl, rfl, ?_, ?_⟩
  · intro code h
    simp [check_connectivity, h]
  · intro st now nowIso sn ep p ck m hm
    rcases mac_paths st now nowIso sn ep p ck with ⟨-, hev⟩ | ⟨a, -, heq⟩
    · rw [hev] at hm
      cases hm
    · rw [heq, ab_events] at hm
      have hm' : m = dispatch_ev st := by simpa using hm
      subst hm'
      constructor <;> intro ho <;> simp [dispatch_ev, ho]

/-- Claim C4 witness: a 404 probe selects offline mode, and an offline
manager that reaches an adapter invokes its offline method. -/
theorem c4_witness :
    check_connectivity (ConnEnv.probeStatus 404) = true ∧
    ((hitState.offline_mode = true → AdapterMethod.getOfflineResponse =
        AdapterMethod.getOfflineResponse) ∧
     (hitState.offline_mode = false → AdapterMethod.getOfflineResponse =
        AdapterMethod.makeCall)) :=
  ⟨c4_offline_selection.2.2.1 404 (by decide),
   c4_offline_selection.2.2.2 hitState 300 "t2" "math_computation" "c" .vnone
     Option.none AdapterMethod.getOfflineResponse (by decide)⟩

/-- Claim C5: after a cache miss on a registered service, a raised
exception — from the dispatched adapter method, or from the cache-store
guard `result.get('success')` on a non-dict result — is caught and
converted to the uniform failure envelope carrying the exception text,
with the manager state unchanged; `make_api_call` itself never raises (it
is a total function). -/
theorem c5_adapter_exception_enveloped {st : ManagerState} {now : Nat}
    {nowIso sn ep : String} {p : PyVal} {ck : Option String} {a : Adapter}
    (hreg : alookup st.service_registry sn = Option.some a)
    (hm : cacheMiss st now ck) :
    (∀ e, dispatch st a ep p = Except.error e →
      make_api_call st now nowIso sn ep p ck =
        (error_response st nowIso ("API call failed: " ++ e), st, [dispatch_ev st])) ∧
    (∀ r k e, dispatch st a ep p = Except.ok r → ck = Option.some k → k ≠ "" →
      PyVal.get r "success" = Except.error e →
      make_api_call st now nowIso sn ep p ck =
        (error_response st nowIso ("API call failed: " ++ e), st, [dispatch_ev st])) := by
  constructor
  · intro e he
    rw [mac_miss hreg hm, ab_callfail he]
  · intro r k e ho hck hk hg
    subst hck
    rw [mac_miss hreg hm, ab_ok_getfail ho hk hg]

/-- Claim C5 witness: an adapter that raises "boom" produces the
"API call failed: boom" envelope. -/
theorem c5_witness :
    make_api_call boomState 0 "t" "svc" "q" .vnone Option.none =
      (error_response boomState "t" "API call failed: boom", boomState,
       [AdapterMethod.makeCall]) :=
  (@c5_adapter_exception_enveloped boomState 0 "t" "svc" "q" .vnone Option.none
    boomAdapter rfl (by intro k e h; cases h)).1 "boom" rfl

/-- Claim C6, amended: `make_api_call` writes to the cache iff a
*non-empty* cache key was supplied and a freshly dispatched result with
truthy `'success'` was obtained (an empty string key is falsy in Python
and is never stored, refuting the claim as literally stated — see
`c6_counterexample`); every reachable state's cache entries hold results
with truthy `'success'`, so a cache hit never returns a failure
envelope. -/
theorem c6_store_iff_success :
    (∀ st now nowIso sn ep p ck,
      (make_api_call st now nowIso sn ep p ck).2.1.cache = st.cache ∨
      ∃ k v, ck = Option.some k ∧ k ≠ "" ∧
        PyVal.get (make_api_call st now nowIso sn ep p ck).1 "success" = Except.ok v ∧
        truthy v = true ∧
        (make_api_call st now nowIso sn ep p ck).2.1.cache =
          (k, ⟨(make_api_call st now nowIso sn ep p ck).1, now⟩) :: st.cache) ∧
    (∀ st a now nowIso sn ep p r v k,
      alookup st.service_registry sn = Option.some a →
      cacheMiss st now (Option.some k) → k ≠ "" →
      dispatch st a ep p = Except.ok r →
      PyVal.get r "success" = Except.ok v → truthy v = true →
      (make_api_call st now nowIso sn ep p (Option.some k)).2.1.cache =
        (k, ⟨r, now⟩) :: st.cache) ∧
    (∀ st, Reachable st → cacheWF st) ∧
    (∀ st now nowIso sn ep p a k e, Reachable st →
      alookup st.service_registry sn = Option.some a → k ≠ "" →
      alookup st.cache k = Option.some e → now - e.timestamp < st.cache_ttl →
      ∃ v, PyVal.get (make_api_call st now nowIso sn ep p (Option.some k)).1
        "success" = Except.ok v ∧ truthy v = true) := by
  refine ⟨?_, ?_, ?_, ?_⟩
  · intro st now nowIso sn ep p ck
    rcases mac_state_cases st now nowIso sn ep p ck with hst | ⟨k, v, hck, hk, hget, hv, hstore⟩
    · left; rw [hst]
    · right; exact ⟨k, v, hck, hk, hget, hv, by rw [hstore]; rfl⟩
  · intro st a now nowIso sn ep p r v k hreg hm hk hd hg hv
    rw [mac_miss hreg hm, ab_ok_store hd hk hg hv]
    rfl
  · intro st h
    exact (reachable_wf st h).1
  · intro st now nowIso sn ep p a k e h hreg hk hc hf
    rw [mac_hit hreg hk hc hf]
    exact (reachable_wf st h).1 k e hc

/-- Claim C6 counterexample: with the supplied cache key `''` (falsy in
Python) a successful result is *not* stored, refuting the claimed
"stores iff a cache_key was supplied and the result reports success". -/
theorem c6_counterexample :
    PyVal.get (make_api_call demoState 0 "t0" "math_computation" "c" .vnone
      (Option.some "")).1 "success" = Except.ok (.vbool true) ∧
    (make_api_call demoState 0 "t0" "math_computation" "c" .vnone
      (Option.some "")).2.1.cache = ([] : List (String × CacheEntry)) :=
  ⟨rfl, rfl⟩

/-- Claim C6 witness: a fresh hit in the reachable state `demoState1`
returns a result whose `'success'` field is truthy. -/
theorem c6_witness :
    ∃ v, PyVal.get (make_api_call demoState1 10 "t1" "math_computation" "compute"
      .vnone (Option.some "k")).1 "success" = Except.ok v ∧ truthy v = true :=
  c6_store_iff_success.2.2.2 demoState1 10 "t1" "math_computation" "compute" .vnone
    mathComputationAdapter "k" ⟨demoStored, 0⟩
    (Reachable.step demoState 0 "t0" "math_computation" "compute" .vnone
      (Option.some "k") (Reachable.init demoEnv))
    rfl (by decide) rfl (by decide)

/-- Claim C7 counterexample: the query "2+2" alone triggers no handler of
the `math_responses` loop (its keys are 'derivative', 'integral', 'solve',
'calculate', and none occurs in the query), so `get_offline_response`
returns the failure response, not '4'. -/
theorem c7_counterexample :
    wolfram_get_offline_response "query" (.vdict [("query", .vstr "2+2")]) =
      Except.ok (.vdict [("success", .vbool false),
        ("error", .vstr "Offline math computation not available for this query"),
        ("suggestion", .vstr "Try basic arithmetic, derivatives, or integrals")]) := rfl

/-- Claim C7, amended: for params whose 'query' string contains (after
lowercasing) both '2+2' and 'calculate' and none of 'derivative',
'integral', 'solve', `WolframAlphaAdapter.get_offline_response` returns a
success response whose data is the string '4'.  (As literally stated the
claim is refuted by `c7_counterexample`: a query containing '2+2' reaches
`_calculate_expression` only via the 'calculate' keyword, and an earlier
keyword may answer first.) -/
theorem c7_calculate_2plus2 {kvs : List (String × PyVal)} {q ep : String}
    (hq : alookup kvs "query" = Option.some (.vstr q))
    (h1 : strContains (lowerStr q) "2+2" = true)
    (h2 : strContains (lowerStr q) "calculate" = true)
    (h3 : strContains (lowerStr q) "derivative" = false)
    (h4 : strContains (lowerStr q) "integral" = false)
    (h5 : strContains (lowerStr q) "solve" = false) :
    wolfram_get_offline_response ep (.vdict kvs) =
      Except.ok (.vdict [("success", .vbool true), ("data", .vstr "4"),
                         ("source", .vstr "offline_math"),
                         ("cached", .vbool false)]) := by
  have hres : wolfram_offline_result (lowerStr q) = Option.some "4" := by
    simp [wolfram_offline_result, try_math_response, h1, h2, h3, h4, h5,
          calculate_expression, Option.orElse]
  unfold wolfram_get_offline_response
  rw [show PyVal.getD (.vdict kvs) "query" (.vstr "") =
        Except.ok ((alookup kvs "query").getD (.vstr "")) from rfl, bind_ok, hq]
  rw [show (Option.some (PyVal.vstr q)).getD (.vstr "") = .vstr q from rfl]
  rw [show pyLower (.vstr q) = Except.ok (lowerStr q) from rfl, bind_ok]
  rw [hres]
  rfl

/-- Claim C7 witness: the query "calculate 2+2" yields '4'. -/
theorem c7_witness :
    wolfram_get_offline_response "query" (.vdict [("query", .vstr "calculate 2+2")]) =
      Except.ok (.vdict [("success", .vbool true), ("data", .vstr "4"),
                         ("source", .vstr "offline_math"),
                         ("cached", .vbool false)]) :=
  c7_calculate_2plus2 rfl (by decide) (by decide) (by decide) (by decide) (by decide)

/-- Claim C8: with encryption enabled in the security configuration and
the cryptography library available, `_encrypt_data` encrypts the data
with the fresh per-call key (`key`, consumed by this call only) and
returns a dict holding exactly the ciphertext, the `'encrypted'` marker
and the fixed `'key_id'` label 'env_derived' — not the key — while the
object's attributes are left unchanged, so neither the returned value nor
the object state retains the key needed to recover the ciphertext. -/
theorem c8_encrypt_discards_key (fE : Nat → String → String) (key : Nat)
    (st : SecurityState) (data security_config enc : PyVal)
    (hconf : pyItem security_config "encryption" = Except.ok enc)
    (henc : truthy enc = true) :
    encrypt_data fE key true st data security_config =
      Except.ok (.vdict [("encrypted", .vbool true),
                         ("data", .vstr (fE key (encrypt_plaintext data))),
                         ("key_id", .vstr "env_derived")], st) := by
  unfold encrypt_data
  rw [hconf, bind_ok, henc]
  rfl

/-- The `'confidential'` entry of the security-level table. -/
def confidential_config : PyVal :=
  .vdict [("encryption", .vbool true),
          ("authentication", .vstr "multi_factor"),
          ("logging", .vstr "detailed"),
          ("retention", .vstr "1 year")]

example : pyItem security_levels_table "confidential" =
    Except.ok confidential_config := rfl

/-- A `DefendIQSecurity` state for the witness. -/
def secDemo : SecurityState := ⟨security_levels_table, .vnone, .vnone⟩

/-- Claim C8 witness: encrypting "hello" under the 'confidential'
configuration with the identity cipher model. -/
theorem c8_witness :
    encrypt_data (fun _ s => s) 0 true secDemo (.vstr "hello") confidential_config =
      Except.ok (.vdict [("encrypted", .vbool true), ("data", .vstr "hello"),
                         ("key_id", .vstr "env_derived")], secDemo) :=
  c8_encrypt_discards_key (fun _ s => s) 0 secDemo (.vstr "hello")
    confidential_config (.vbool true) rfl rfl

/-- Claim C9: in every reachable manager state, `make_api_call` is a
total function (it is a Lean `def`, hence terminates and never raises)
whose result is always a dict: an error envelope, a cached result, or a
dispatched adapter result. -/
theorem c9_total_and_dict {st : ManagerState} (h : Reachable st)
    (now : Nat) (nowIso sn ep : String) (p : PyVal) (ck : Option String) :
    ∃ kvs, (make_api_call st now nowIso sn ep p ck).1 = .vdict kvs ∧
      ((∃ msg, (make_api_call st now nowIso sn ep p ck).1 =
          error_response st nowIso msg) ∨
       (∃ k e, ck = Option.some k ∧ alookup st.cache k = Option.some e ∧
          (make_api_call st now nowIso sn ep p ck).1 = e.data) ∨
       (∃ a r, alookup st.service_registry sn = Option.some a ∧
          dispatch st a ep p = Except.ok r ∧
          (make_api_call st now nowIso sn ep p ck).1 = r)) :=
  mac_result_shape (reachable_wf st h).2 (reachable_wf st h).1 now nowIso sn ep p ck

/-- Claim C9 witness: a fresh offline call to `wolfram_alpha` with `None`
params (on which the adapter raises internally, yet a dict still comes
back). -/
theorem c9_witness :
    ∃ kvs, (make_api_call demoState 5 "t" "wolfram_alpha" "query" .vnone
        Option.none).1 = .vdict kvs ∧
      ((∃ msg, (make_api_call demoState 5 "t" "wolfram_alpha" "query" .vnone
          Option.none).1 = error_response demoState "t" msg) ∨
       (∃ k e, Option.none = Option.some k ∧
          alookup demoState.cache k = Option.some e ∧
          (make_api_call demoState 5 "t" "wolfram_alpha" "query" .vnone
            Option.none).1 = e.data) ∨
       (∃ a r, alookup demoState.service_registry "wolfram_alpha" = Option.some a ∧
          dispatch demoState a "query" .vnone = Except.ok r ∧
          (make_api_call demoState 5 "t" "wolfram_alpha" "query" .vnone
            Option.none).1 = r)) :=
  c9_total_and_dict (Reachable.init demoEnv) 5 "t" "wolfram_alpha" "query" .vnone
    Option.none

/-- Claim C10: `make_api_call` changes nothing but the cache —
`service_registry`, `cache_ttl`, `offline_mode` and `api_health` are
untouched — entries under keys other than the supplied cache key are
unchanged, and an existing entry is never deleted: it is at most
overwritten by a new successful result under the same key. -/
theorem c10_frame_and_no_delete (st : ManagerState) (now : Nat)
    (nowIso sn ep : String) (p : PyVal) (ck : Option String) :
    (make_api_call st now nowIso sn ep p ck).2.1.service_registry = st.service_registry ∧
    (make_api_call st now nowIso sn ep p ck).2.1.cache_ttl = st.cache_ttl ∧
    (make_api_call st now nowIso sn ep p ck).2.1.offline_mode = st.offline_mode ∧
    (make_api_call st now nowIso sn ep p ck).2.1.api_health = st.api_health ∧
    (∀ k', ck ≠ Option.some k' →
      alookup (make_api_call st now nowIso sn ep p ck).2.1.cache k' =
        alookup st.cache k') ∧
    (∀ k' e, alookup st.cache k' = Option.some e →
      ∃ e', alookup (make_api_call st now nowIso sn ep p ck).2.1.cache k' =
          Option.some e' ∧
        (e' = e ∨ ∃ v, PyVal.get e'.data "success" = Except.ok v ∧
          truthy v = true)) := by
  obtain ⟨hf1, hf2, hf3, hf4⟩ := mac_frame st now nowIso sn ep p ck
  refine ⟨hf1, hf2, hf3, hf4, ?_, ?_⟩
  · intro k' hck
    rcases mac_state_cases st now nowIso sn ep p ck with
      hst | ⟨k, v, hckk, hk, hget, hv, hstore⟩
    · rw [hst]
    · have hkk : k ≠ k' := by
        intro hkk
        subst hkk
        exact hck hckk
      rw [hstore]
      simp only [cache_store, alookup_cons]
      rw [if_neg hkk]
  · intro k' e he
    rcases mac_state_cases st now nowIso sn ep p ck with
      hst | ⟨k, v, hckk, hk, hget, hv, hstore⟩
    · rw [hst]
      exact ⟨e, he, Or.inl rfl⟩
    · rw [hstore]
      by_cases hkk : k = k'
      · subst hkk
        refine ⟨⟨(make_api_call st now nowIso sn ep p ck).1, now⟩, ?_,
          Or.inr ⟨v, hget, hv⟩⟩
        simp only [cache_store, alookup_cons]
        simp
      · refine ⟨e, ?_, Or.inl rfl⟩
        simp only [cache_store, alookup_cons]
        rw [if_neg hkk, he]

/-- Claim C10 witness: a call caching under "k2" leaves the entry under
"k" untouched. -/
theorem c10_witness :
    alookup (make_api_call hitState 0 "t" "math_computation" "c" .vnone
      (Option.some "k2")).2.1.cache "k" = alookup hitState.cache "k" :=
  (c10_frame_and_no_delete hitState 0 "t" "math_computation" "c" .vnone
    (Option.some "k2")).2.2.2.2.1 "k" (by decide)
